import Mathlib

/-!
Shallow embedding of `src/app.py` (UberPuneAnalysis): a pandas pipeline that
cleans a trip log (datetime parsing, coordinate null-filtering, haversine
distance, fare coercion) and computes aggregate views.  Floating-point
numbers are modelled by `ℝ` for the trigonometric distance computation and by
`ℚ` for the exact tabular values (coordinates, fares); a missing cell (NaN)
is `Option.none`.
-/

namespace UberPune

/-- A raw cell of the CSV as pandas sees it: missing (NaN), a string, or a
number.  `pd.to_datetime(.., errors='coerce')` and
`pd.to_numeric(.., errors='coerce')` map such cells to `Option` results. -/
inductive CellVal where
  | na : CellVal
  | str (s : String) : CellVal
  | num (q : ℚ) : CellVal
deriving DecidableEq

/-- Split a character list on a separator character (groups between
occurrences of `c`), used to model string splitting in datetime / decimal
parsing. -/
def splitOnChar (c : Char) : List Char → List (List Char)
  | [] => [[]]
  | x :: xs =>
    let r := splitOnChar c xs
    if x = c then [] :: r
    else
      match r with
      | [] => [[x]]
      | g :: gs => (x :: g) :: gs

/-- Value of a nonempty all-digit character list, `none` otherwise. -/
def digitsToNat (l : List Char) : Option Nat :=
  match l with
  | [] => none
  | _ =>
    l.foldl (fun acc c =>
      acc.bind fun n => if c.isDigit then some (n * 10 + (c.toNat - 48)) else none)
      (some 0)

def isLeapYear (y : Nat) : Bool :=
  y % 4 = 0 && (y % 100 != 0 || y % 400 = 0)

def daysInMonth (y m : Nat) : Nat :=
  if m = 2 then (if isLeapYear y then 29 else 28)
  else if m = 4 ∨ m = 6 ∨ m = 9 ∨ m = 11 then 30
  else 31

/-- A parsed timezone-naive timestamp (the result of a successful
`pd.to_datetime`). -/
structure Timestamp where
  year : Nat
  month : Nat
  day : Nat
  hour : Nat
  minute : Nat
  second : Nat
deriving DecidableEq

/-- Parse `YYYY-MM-DD` with calendar validation. -/
def parseDate (l : List Char) : Option (Nat × Nat × Nat) :=
  match splitOnChar '-' l with
  | [ys, ms, ds] => do
    let y ← digitsToNat ys
    let m ← digitsToNat ms
    let d ← digitsToNat ds
    if 1 ≤ m ∧ m ≤ 12 ∧ 1 ≤ d ∧ d ≤ daysInMonth y m then some (y, m, d) else none
  | _ => none

/-- Parse `HH:MM:SS` (or `HH:MM`) with range validation. -/
def parseTime (l : List Char) : Option (Nat × Nat × Nat) :=
  match splitOnChar ':' l with
  | [hs, ms, ss] => do
    let h ← digitsToNat hs
    let mi ← digitsToNat ms
    let se ← digitsToNat ss
    if h < 24 ∧ mi < 60 ∧ se < 60 then some (h, mi, se) else none
  | [hs, ms] => do
    let h ← digitsToNat hs
    let mi ← digitsToNat ms
    if h < 24 ∧ mi < 60 then some (h, mi, 0) else none
  | _ => none

/-- Parse a datetime string of the form `YYYY-MM-DD[ HH:MM[:SS]]`, the format
of the ride log; any other string fails (and is coerced to NaT by
`errors='coerce'`). -/
def parseDatetime (s : String) : Option Timestamp :=
  match splitOnChar ' ' s.data with
  | [d] => (parseDate d).map fun p => ⟨p.1, p.2.1, p.2.2, 0, 0, 0⟩
  | [d, t] => do
    let p ← parseDate d
    let q ← parseTime t
    some ⟨p.1, p.2.1, p.2.2, q.1, q.2.1, q.2.2⟩
  | _ => none

/-- Model of `pd.to_datetime(cell, errors='coerce')`: NaN ↦ NaT, strings are
parsed, failures coerce to NaT (`none`). -/
def to_datetime (v : CellVal) : Option Timestamp :=
  match v with
  | .na => none
  | .str s => parseDatetime s
  | .num _ => none

/-- Parse a (signed) decimal numeral string to an exact rational. -/
def parseDecimal (s : String) : Option ℚ :=
  let p : ℚ × List Char :=
    match s.data with
    | '-' :: rest => (-1, rest)
    | '+' :: rest => (1, rest)
    | l => (1, l)
  match splitOnChar '.' p.2 with
  | [ip] => (digitsToNat ip).map fun n => p.1 * n
  | [ip, fp] => do
    let n ← digitsToNat ip
    let f ← digitsToNat fp
    some (p.1 * ((n : ℚ) + (f : ℚ) / (10 : ℚ) ^ fp.length))
  | _ => none

/-- Model of `pd.to_numeric(cell, errors='coerce')`: NaN ↦ NaN, numbers pass
through, strings are parsed as decimals, failures coerce to NaN (`none`). -/
def to_numeric (v : CellVal) : Option ℚ :=
  match v with
  | .na => none
  | .num q => some q
  | .str s => parseDecimal s

/-- Day-of-week index with Monday = 0 .. Sunday = 6 (pandas
`Series.dt.weekday`), via Zeller's congruence. -/
def zellerWeekday (y m d : Nat) : Nat :=
  let y' := if m ≤ 2 then y - 1 else y
  let m' := if m ≤ 2 then m + 12 else m
  let K := y' % 100
  let J := y' / 100
  let h := (d + (13 * (m' + 1)) / 5 + K + K / 4 + J / 4 + 5 * J) % 7
  (h + 5) % 7

def weekdayOf (t : Timestamp) : Nat :=
  zellerWeekday t.year t.month t.day

/-- `days_order` from `analyze_weekly_pattern` (line 71), which also matches
the pandas `day_name()` table indexed by `weekday`. -/
def days_order : List String :=
  ["Monday", "Tuesday", "Wednesday", "Thursday", "Friday", "Saturday", "Sunday"]

def dayName (t : Timestamp) : String :=
  days_order.getD (weekdayOf t) ""

/-- Python `math.atan2(y, x)`: the two-argument arctangent with the C
library's quadrant conventions. -/
noncomputable def atan2 (y x : ℝ) : ℝ :=
  open Classical in
  if 0 < x then Real.arctan (y / x)
  else if x < 0 then
    (if 0 ≤ y then Real.arctan (y / x) + Real.pi else Real.arctan (y / x) - Real.pi)
  else if 0 < y then Real.pi / 2
  else if y < 0 then -(Real.pi / 2)
  else 0

/-- The intermediate `a` of `haversine_distance` (line 50):
`sin(dlat/2)**2 + cos(lat1) * cos(lat2) * sin(dlon/2)**2` after the four
inputs are converted from degrees to radians. -/
noncomputable def hav_a (lat1 lon1 lat2 lon2 : ℝ) : ℝ :=
  Real.sin ((lat2 * Real.pi / 180 - lat1 * Real.pi / 180) / 2) ^ 2 +
    Real.cos (lat1 * Real.pi / 180) * Real.cos (lat2 * Real.pi / 180) *
      Real.sin ((lon2 * Real.pi / 180 - lon1 * Real.pi / 180) / 2) ^ 2

/-- `haversine_distance` (lines 45-52): great-circle distance in kilometers,
`R * c` with `R = 6371` and `c = 2 * atan2(sqrt(a), sqrt(1-a))`. -/
noncomputable def haversine_distance (lat1 lon1 lat2 lon2 : ℝ) : ℝ :=
  6371 *
    (2 * atan2 (Real.sqrt (hav_a lat1 lon1 lat2 lon2))
      (Real.sqrt (1 - hav_a lat1 lon1 lat2 lon2)))

/-- A raw CSV row before preprocessing.  Coordinates are exact decimals with
`none` for a missing (NaN) cell; datetime and fare cells are raw `CellVal`s
fed to the pandas coercions. -/
structure RawRow where
  pickup_datetime : CellVal
  pickup_lat : Option ℚ
  pickup_lon : Option ℚ
  dropoff_lat : Option ℚ
  dropoff_lon : Option ℚ
  fare_amount : CellVal
deriving DecidableEq

/-- The dataframe after lines 21-30: datetime parsed and NaT rows dropped,
derived columns `hour`, `day`, `month`, `weekday` added. -/
structure Stage1Row where
  pickup_datetime : Timestamp
  pickup_lat : Option ℚ
  pickup_lon : Option ℚ
  dropoff_lat : Option ℚ
  dropoff_lon : Option ℚ
  fare_amount : CellVal
  hour : Nat
  day : String
  month : Nat
  weekday : Nat

/-- The dataframe after lines 33-36: rows with a missing coordinate dropped
and the `distance` column added. -/
structure Stage2Row where
  pickup_datetime : Timestamp
  pickup_lat : ℚ
  pickup_lon : ℚ
  dropoff_lat : ℚ
  dropoff_lon : ℚ
  fare_amount : CellVal
  hour : Nat
  day : String
  month : Nat
  weekday : Nat
  distance : ℝ

/-- A cleaned trip record (the dataframe after `preprocess_data`).
`trip_duration` models the column of that name, which does not exist until
`analyze_trip_durations` assigns it (hence `Option`, `none` = column absent). -/
structure Row where
  pickup_datetime : Timestamp
  pickup_lat : ℚ
  pickup_lon : ℚ
  dropoff_lat : ℚ
  dropoff_lon : ℚ
  fare_amount : ℚ
  hour : Nat
  day : String
  month : Nat
  weekday : Nat
  distance : ℝ
  trip_duration : Option ℝ

/-- Lines 21-30 of `preprocess_data`, per row: coerce the pickup datetime,
drop the row if it is NaT, and derive `hour`/`day`/`month`/`weekday`. -/
def toStage1 (raw : RawRow) : Option Stage1Row :=
  match to_datetime raw.pickup_datetime with
  | none => none
  | some t =>
    some { pickup_datetime := t
           pickup_lat := raw.pickup_lat
           pickup_lon := raw.pickup_lon
           dropoff_lat := raw.dropoff_lat
           dropoff_lon := raw.dropoff_lon
           fare_amount := raw.fare_amount
           hour := t.hour
           day := dayName t
           month := t.month
           weekday := weekdayOf t }

/-- Lines 33-36 of `preprocess_data`, per row: drop the row if any of the
four coordinates is missing, then compute the haversine distance of the
pickup and dropoff points. -/
noncomputable def toStage2 (r : Stage1Row) : Option Stage2Row :=
  match r.pickup_lat, r.pickup_lon, r.dropoff_lat, r.dropoff_lon with
  | some plat, some plon, some dlat, some dlon =>
    some { pickup_datetime := r.pickup_datetime
           pickup_lat := plat
           pickup_lon := plon
           dropoff_lat := dlat
           dropoff_lon := dlon
           fare_amount := r.fare_amount
           hour := r.hour
           day := r.day
           month := r.month
           weekday := r.weekday
           distance := haversine_distance plat plon dlat dlon }
  | _, _, _, _ => none

/-- Lines 39-40 of `preprocess_data`, per row: coerce the fare to a number
and drop the row if the coercion fails. -/
def toCleanRow (r : Stage2Row) : Option Row :=
  match to_numeric r.fare_amount with
  | none => none
  | some q =>
    some { pickup_datetime := r.pickup_datetime
           pickup_lat := r.pickup_lat
           pickup_lon := r.pickup_lon
           dropoff_lat := r.dropoff_lat
           dropoff_lon := r.dropoff_lon
           fare_amount := q
           hour := r.hour
           day := r.day
           month := r.month
           weekday := r.weekday
           distance := r.distance
           trip_duration := none }

/-- `preprocess_data` (lines 19-40): the three filtering/enrichment passes in
the order the source performs them. -/
noncomputable def preprocess (raws : List RawRow) : List Row :=
  ((raws.filterMap toStage1).filterMap toStage2).filterMap toCleanRow

/-- Insertion into a list sorted by the boolean relation `le`. -/
def insertLe (le : α → α → Bool) (a : α) : List α → List α
  | [] => [a]
  | b :: bs => if le a b then a :: b :: bs else b :: insertLe le a bs

/-- Insertion sort by the boolean relation `le`, modelling the sorting pandas
performs in `value_counts` / `sort_index` / `mode`. -/
def sortLe (le : α → α → Bool) : List α → List α
  | [] => []
  | a :: as => insertLe le a (sortLe le as)

/-- Pandas `Series.value_counts()`: each distinct value with its number of
occurrences, ordered by descending count. -/
def value_counts [DecidableEq α] (l : List α) : List (α × Nat) :=
  sortLe (fun p q => decide (q.2 ≤ p.2)) (l.dedup.map fun a => (a, l.count a))

/-- First value stored under key `k` in an association list (how a pandas
index lookup on a unique index behaves). -/
def lookupKey [DecidableEq α] (k : α) : List (α × β) → Option β
  | [] => none
  | p :: rest => if p.1 = k then some p.2 else lookupKey k rest

/-- Pandas `Series.reindex(idx)`: one entry per requested key, carrying the
stored value for keys present in the series and NaN (`none`) for absent
keys. -/
def reindex [DecidableEq α] (vc : List (α × Nat)) (idx : List α) : List (α × Option Nat) :=
  idx.map fun k => (k, lookupKey k vc)

/-- Pandas `Series.mode()`: the most frequent values, sorted ascending by
the boolean relation `le`; empty on an empty series. -/
def seriesMode [DecidableEq α] (le : α → α → Bool) (l : List α) : List α :=
  let m := (l.dedup.map fun a => l.count a).foldr max 0
  sortLe le (l.dedup.filter fun a => l.count a = m)

/-- `analyze_peak_hours` (lines 59-68): the plotted series
`df['hour'].value_counts().sort_index()`, paired with the dataframe the
method leaves behind (it never assigns to `self.df`). -/
noncomputable def analyze_peak_hours (df : List Row) : List (Nat × Nat) × List Row :=
  (sortLe (fun p q => decide (p.1 ≤ q.1)) (value_counts (df.map Row.hour)), df)

/-- `analyze_weekly_pattern` (lines 70-80): the plotted series
`df['day'].value_counts().reindex(days_order)`, paired with the dataframe
the method leaves behind. -/
noncomputable def analyze_weekly_pattern (df : List Row) :
    List (String × Option Nat) × List Row :=
  (reindex (value_counts (df.map Row.day)) days_order, df)

def pickupKey (r : Row) : ℚ × ℚ :=
  (r.pickup_lat, r.pickup_lon)

/-- `pickup_clusters` (line 88):
`df.groupby(['pickup_lat','pickup_lon']).size()` — each occurring pickup
coordinate pair with its group size (groupby sorts keys; no consumer here
depends on that order, so first-occurrence order is kept). -/
noncomputable def pickup_clusters (df : List Row) : List ((ℚ × ℚ) × Nat) :=
  (df.map pickupKey).dedup.map fun k => (k, (df.map pickupKey).count k)

/-- `popular_locations` (line 89): `pickup_clusters[pickup_clusters['count'] > 10]`. -/
noncomputable def popular_locations (df : List Row) : List ((ℚ × ℚ) × Nat) :=
  (pickup_clusters df).filter fun p => 10 < p.2

/-- `analyze_popular_locations` (lines 82-112), restricted to its data
content (the map rendering and reverse geocoding are presentation/IO).  The
method never assigns to `self.df`. -/
noncomputable def analyze_popular_locations (df : List Row) :
    List ((ℚ × ℚ) × Nat) × List Row :=
  (popular_locations df, df)

/-- `analyze_trip_durations` (lines 114-122): computes
`self.df['distance'] / 20 * 60` and assigns it to the new column
`self.df['trip_duration']`; returns the duration series and the updated
dataframe. -/
noncomputable def analyze_trip_durations (df : List Row) : List ℝ × List Row :=
  (df.map fun r => r.distance / 20 * 60,
   df.map fun r => { r with trip_duration := some (r.distance / 20 * 60) })

/-- `analyze_fare_distribution` (lines 124-130): the plotted fare series;
the method never assigns to `self.df`. -/
def analyze_fare_distribution (df : List Row) : List ℚ × List Row :=
  (df.map Row.fare_amount, df)

/-- Pandas `Series.mean()`: NaN (`none`) on an empty series. -/
def mean_q (l : List ℚ) : Option ℚ :=
  match l with
  | [] => none
  | _ => some (l.sum / l.length)

/-- Pandas `Series.mean()` over the real-valued distance column. -/
noncomputable def mean_r (l : List ℝ) : Option ℝ :=
  match l with
  | [] => none
  | _ => some (l.sum / l.length)

structure SummaryStats where
  total_rides : Nat
  average_fare : Option ℚ
  average_distance : Option ℝ
  busiest_hour : Nat
  busiest_day : String

/-- String order used by pandas when sorting the `mode()` of the `day`
column. -/
def strLe (a b : String) : Bool :=
  !(decide (b < a))

/-- `generate_summary_stats` (lines 132-139).  `mode().iloc[0]` raises
`IndexError` when the mode is empty (empty dataframe), modelled by `none`:
the dict is returned only when both modes are nonempty. -/
noncomputable def generate_summary_stats (df : List Row) : Option SummaryStats :=
  match (seriesMode (fun a b => decide (a ≤ b)) (df.map Row.hour)).head?,
      (seriesMode strLe (df.map Row.day)).head? with
  | some h, some d =>
    some { total_rides := df.length
           average_fare := mean_q (df.map Row.fare_amount)
           average_distance := mean_r (df.map Row.distance)
           busiest_hour := h
           busiest_day := d }
  | _, _ => none

/-- Exceptions the dashboard run can hit in the modelled error paths. -/
inductive PyError where
  | attributeError : PyError
  | indexError : PyError
deriving DecidableEq

/-- The `UberPuneAnalysis` object state: `df` is `none` when `self.df` was
never assigned (the `FileNotFoundError` branch of `__init__`). -/
structure UberPuneAnalysis where
  df : Option (List Row)

/-- `__init__` (lines 12-17): on a readable file the raw table is loaded and
preprocessed; on `FileNotFoundError` a message is shown (`st.write`) and the
constructor returns with `self.df` never assigned. -/
noncomputable def mkAnalysis (file : Option (List RawRow)) : UberPuneAnalysis :=
  { df := file.map preprocess }

/-- `generate_summary_stats` as invoked on the object: touching `self.df`
when it was never assigned raises `AttributeError`; an empty dataframe makes
`mode().iloc[0]` raise `IndexError`. -/
noncomputable def generate_summary_stats_run (a : UberPuneAnalysis) :
    Except PyError SummaryStats :=
  match a.df with
  | none => .error .attributeError
  | some df =>
    match generate_summary_stats df with
    | none => .error .indexError
    | some s => .ok s

/-- The three per-row passes of `preprocess_data` fuse into a single pass. -/
lemma preprocess_eq_single (raws : List RawRow) :
    preprocess raws
      = raws.filterMap fun raw => ((toStage1 raw).bind toStage2).bind toCleanRow := by
  unfold preprocess
  rw [List.filterMap_filterMap, List.filterMap_filterMap]
  refine congrArg (fun f => List.filterMap f raws) (funext fun raw => ?_)
  exact (Option.bind_assoc _ _ _).symm

/-- Claim C1: a row appears in the cleaned dataset if and only if its pickup
timestamp parses successfully, all four coordinate fields are present, and
its fare amount coerces to a number; such rows are kept (enriched with the
derived fields), all other rows are dropped, and no new rows are
introduced. -/
theorem preprocess_retained_iff (raws : List RawRow) :
    preprocess raws = raws.filterMap fun raw =>
      match to_datetime raw.pickup_datetime, raw.pickup_lat, raw.pickup_lon,
          raw.dropoff_lat, raw.dropoff_lon, to_numeric raw.fare_amount with
      | some t, some plat, some plon, some dlat, some dlon, some fare =>
        some { pickup_datetime := t
               pickup_lat := plat
               pickup_lon := plon
               dropoff_lat := dlat
               dropoff_lon := dlon
               fare_amount := fare
               hour := t.hour
               day := dayName t
               month := t.month
               weekday := weekdayOf t
               distance := haversine_distance plat plon dlat dlon
               trip_duration := none }
      | _, _, _, _, _, _ => none := by
  rw [preprocess_eq_single]
  refine congrArg (fun f => List.filterMap f raws) (funext fun raw => ?_)
  cases hdt : to_datetime raw.pickup_datetime <;>
    cases hpl : raw.pickup_lat <;>
    cases hplo : raw.pickup_lon <;>
    cases hdl : raw.dropoff_lat <;>
    cases hdlo : raw.dropoff_lon <;>
    cases hf : to_numeric raw.fare_amount <;>
    simp [toStage1, toStage2, toCleanRow, hdt, hpl, hplo, hdl, hdlo, hf]

/-- Claim C10: preprocessing is a stable filter plus enrichment — projecting
each cleaned row to its carried raw fields (parsed timestamp, the four
coordinates, the numeric fare) gives exactly the retained raw rows' values,
in their original relative order. -/
theorem preprocess_stable_filter (raws : List RawRow) :
    (preprocess raws).map (fun r =>
        (r.pickup_datetime, r.pickup_lat, r.pickup_lon, r.dropoff_lat,
          r.dropoff_lon, r.fare_amount))
      = raws.filterMap fun raw =>
          match to_datetime raw.pickup_datetime, raw.pickup_lat, raw.pickup_lon,
              raw.dropoff_lat, raw.dropoff_lon, to_numeric raw.fare_amount with
          | some t, some plat, some plon, some dlat, some dlon, some fare =>
            some (t, plat, plon, dlat, dlon, fare)
          | _, _, _, _, _, _ => none := by
  rw [preprocess_eq_single, List.map_filterMap]
  refine congrArg (fun f => List.filterMap f raws) (funext fun raw => ?_)
  cases hdt : to_datetime raw.pickup_datetime <;>
    cases hpl : raw.pickup_lat <;>
    cases hplo : raw.pickup_lon <;>
    cases hdl : raw.dropoff_lat <;>
    cases hdlo : raw.dropoff_lon <;>
    cases hf : to_numeric raw.fare_amount <;>
    simp [toStage1, toStage2, toCleanRow, hdt, hpl, hplo, hdl, hdlo, hf]

lemma toStage2_distance {r1 : Stage1Row} {r2 : Stage2Row} (h : toStage2 r1 = some r2) :
    r2.distance
      = haversine_distance r2.pickup_lat r2.pickup_lon r2.dropoff_lat r2.dropoff_lon := by
  unfold toStage2 at h
  cases hpl : r1.pickup_lat <;> cases hplo : r1.pickup_lon <;>
    cases hdl : r1.dropoff_lat <;> cases hdlo : r1.dropoff_lon <;>
    rw [hpl, hplo, hdl, hdlo] at h <;> simp at h <;> subst h <;> rfl

lemma toCleanRow_fields {r2 : Stage2Row} {r : Row} (h : toCleanRow r2 = some r) :
    r.distance = r2.distance ∧ r.pickup_lat = r2.pickup_lat ∧
      r.pickup_lon = r2.pickup_lon ∧ r.dropoff_lat = r2.dropoff_lat ∧
      r.dropoff_lon = r2.dropoff_lon := by
  unfold toCleanRow at h
  cases hf : to_numeric r2.fare_amount <;> rw [hf] at h <;> simp at h <;>
    subst h <;> exact ⟨rfl, rfl, rfl, rfl, rfl⟩

/-- Every cleaned row's stored `distance` is the haversine distance of its
own stored coordinates. -/
lemma mem_preprocess_distance {raws : List RawRow} {r : Row} (hr : r ∈ preprocess raws) :
    r.distance
      = haversine_distance r.pickup_lat r.pickup_lon r.dropoff_lat r.dropoff_lon := by
  rw [preprocess_eq_single] at hr
  obtain ⟨raw, -, heq⟩ := List.mem_filterMap.mp hr
  obtain ⟨r2, h2, h3⟩ := Option.bind_eq_some.mp heq
  obtain ⟨r1, -, h2'⟩ := Option.bind_eq_some.mp h2
  obtain ⟨hd, ha, hb, hc, he⟩ := toCleanRow_fields h3
  rw [hd, ha, hb, hc, he]
  exact toStage2_distance h2'

/-- Claim C2: for every record of the cleaned dataset, the derived distance
equals the haversine great-circle distance of its pickup and dropoff points:
with the four coordinates converted from degrees to radians,
`a = sin²(Δlat/2) + cos(lat1)·cos(lat2)·sin²(Δlon/2)` and
`distance = 2·R·atan2(√a, √(1−a))` kilometers with `R = 6371` km. -/
theorem cleaned_distance_is_haversine (raws : List RawRow) (r : Row)
    (hr : r ∈ preprocess raws) :
    r.distance =
      2 * 6371 *
        atan2
          (Real.sqrt
            (Real.sin (((r.dropoff_lat : ℝ) * Real.pi / 180 -
                  (r.pickup_lat : ℝ) * Real.pi / 180) / 2) ^ 2 +
              Real.cos ((r.pickup_lat : ℝ) * Real.pi / 180) *
                  Real.cos ((r.dropoff_lat : ℝ) * Real.pi / 180) *
                Real.sin (((r.dropoff_lon : ℝ) * Real.pi / 180 -
                    (r.pickup_lon : ℝ) * Real.pi / 180) / 2) ^ 2))
          (Real.sqrt
            (1 -
              (Real.sin (((r.dropoff_lat : ℝ) * Real.pi / 180 -
                    (r.pickup_lat : ℝ) * Real.pi / 180) / 2) ^ 2 +
                Real.cos ((r.pickup_lat : ℝ) * Real.pi / 180) *
                    Real.cos ((r.dropoff_lat : ℝ) * Real.pi / 180) *
                  Real.sin (((r.dropoff_lon : ℝ) * Real.pi / 180 -
                      (r.pickup_lon : ℝ) * Real.pi / 180) / 2) ^ 2))) := by
  rw [mem_preprocess_distance hr]
  unfold haversine_distance hav_a
  ring

lemma sin_sq_swap (p q : ℝ) : Real.sin ((p - q) / 2) ^ 2 = Real.sin ((q - p) / 2) ^ 2 := by
  rw [show (p - q) / 2 = -((q - p) / 2) by ring, Real.sin_neg]
  ring

lemma hav_a_symm (lat1 lon1 lat2 lon2 : ℝ) :
    hav_a lat1 lon1 lat2 lon2 = hav_a lat2 lon2 lat1 lon1 := by
  unfold hav_a
  rw [sin_sq_swap (lat2 * Real.pi / 180) (lat1 * Real.pi / 180),
    sin_sq_swap (lon2 * Real.pi / 180) (lon1 * Real.pi / 180)]
  ring

/-- Claim C7: the distance function is symmetric — swapping the two
geographic points leaves `haversine_distance` unchanged. -/
theorem haversine_distance_symm (lat1 lon1 lat2 lon2 : ℝ) :
    haversine_distance lat1 lon1 lat2 lon2 = haversine_distance lat2 lon2 lat1 lon1 := by
  unfold haversine_distance
  rw [hav_a_symm lat2 lon2 lat1 lon1]

lemma atan2_nonneg {y : ℝ} (x : ℝ) (hy : 0 ≤ y) : 0 ≤ atan2 y x := by
  unfold atan2
  split_ifs with h1 h2 h3 h4
  · rw [← Real.arctan_zero]
    exact Real.arctan_strictMono.monotone (div_nonneg hy h1.le)
  · have ha := Real.neg_pi_div_two_lt_arctan (y / x)
    have hπ := Real.pi_pos
    linarith
  · have hπ := Real.pi_pos
    linarith
  · exact absurd h4 (not_lt.mpr hy)
  · exact le_refl 0

lemma haversine_nonneg (lat1 lon1 lat2 lon2 : ℝ) :
    0 ≤ haversine_distance lat1 lon1 lat2 lon2 := by
  unfold haversine_distance
  have h := atan2_nonneg (Real.sqrt (1 - hav_a lat1 lon1 lat2 lon2))
    (Real.sqrt_nonneg (hav_a lat1 lon1 lat2 lon2))
  linarith

/-- Claim C8: every cleaned record's derived distance is nonnegative, the
derived trip duration `distance / 20 * 60` is nonnegative, and the distance
is determined solely by the record's own coordinates (it equals
`haversine_distance` of them). -/
theorem cleaned_distance_duration_nonneg (raws : List RawRow) (r : Row)
    (hr : r ∈ preprocess raws) :
    0 ≤ r.distance ∧ 0 ≤ r.distance / 20 * 60 ∧
      r.distance
        = haversine_distance r.pickup_lat r.pickup_lon r.dropoff_lat r.dropoff_lon := by
  have hd := mem_preprocess_distance hr
  have hpos : (0 : ℝ) ≤ r.distance := hd ▸ haversine_nonneg _ _ _ _
  exact ⟨hpos, by positivity, hd⟩

lemma mem_insertLe {le : α → α → Bool} {a x : α} {l : List α} :
    x ∈ insertLe le a l ↔ x = a ∨ x ∈ l := by
  induction l with
  | nil => simp [insertLe]
  | cons b bs ih =>
    simp only [insertLe]
    split
    · simp [List.mem_cons]
    · simp only [List.mem_cons, ih]
      tauto

lemma mem_sortLe {le : α → α → Bool} {x : α} {l : List α} :
    x ∈ sortLe le l ↔ x ∈ l := by
  induction l with
  | nil => simp [sortLe]
  | cons b bs ih => simp [sortLe, mem_insertLe, ih]

lemma mem_value_counts [DecidableEq α] {l : List α} {p : α × Nat} :
    p ∈ value_counts l ↔ p.1 ∈ l ∧ p.2 = l.count p.1 := by
  unfold value_counts
  rw [mem_sortLe, List.mem_map]
  constructor
  · rintro ⟨a, ha, heq⟩
    rw [← heq]
    exact ⟨List.mem_dedup.mp ha, rfl⟩
  · rintro ⟨h1, h2⟩
    exact ⟨p.1, List.mem_dedup.mpr h1, by rw [← h2]⟩

lemma lookupKey_eq_some_of [DecidableEq α] {k : α} {b : β} {L : List (α × β)}
    (hmem : (k, b) ∈ L) (huniq : ∀ p ∈ L, p.1 = k → p.2 = b) :
    lookupKey k L = some b := by
  induction L with
  | nil => cases hmem
  | cons q rest ih =>
    simp only [lookupKey]
    split
    · rename_i hq
      rw [huniq q (List.mem_cons_self q rest) hq]
    · rename_i hq
      rcases List.mem_cons.mp hmem with h | h
      · exact absurd (congrArg Prod.fst h.symm) hq
      · exact ih h fun p hp => huniq p (List.mem_cons_of_mem q hp)

lemma lookupKey_eq_none_of [DecidableEq α] {k : α} {L : List (α × β)}
    (h : ∀ p ∈ L, p.1 ≠ k) :
    lookupKey k L = none := by
  induction L with
  | nil => rfl
  | cons q rest ih =>
    simp only [lookupKey]
    rw [if_neg (h q (List.mem_cons_self q rest))]
    exact ih fun p hp => h p (List.mem_cons_of_mem q hp)

/-- `value_counts().reindex`-style lookup: the count when the value occurs,
NaN (`none`) when it does not. -/
lemma lookup_value_counts [DecidableEq α] (l : List α) (d : α) :
    lookupKey d (value_counts l)
      = if 0 < l.count d then some (l.count d) else none := by
  by_cases hd : d ∈ l
  · rw [if_pos (List.count_pos_iff.mpr hd)]
    refine lookupKey_eq_some_of (mem_value_counts.mpr ⟨hd, rfl⟩) fun p hp hk => ?_
    obtain ⟨-, h2⟩ := mem_value_counts.mp hp
    rw [h2, hk]
  · rw [if_neg (fun hpos => hd (List.count_pos_iff.mp hpos))]
    refine lookupKey_eq_none_of fun p hp hk => ?_
    obtain ⟨h1, -⟩ := mem_value_counts.mp hp
    exact hd (hk ▸ h1)

/-- A valid raw trip record used as the concrete input of the witnesses and
counterexamples: a Monday-morning ride near central Pune. -/
def goodRaw : RawRow :=
  { pickup_datetime := .str "2024-01-15 08:30:00"
    pickup_lat := some (18.5204 : ℚ)
    pickup_lon := some (73.8567 : ℚ)
    dropoff_lat := some (18.5304 : ℚ)
    dropoff_lon := some (73.8667 : ℚ)
    fare_amount := .str "10.0" }

/-- The cleaned dataset obtained from the single valid raw record. -/
noncomputable def sampleCleaned : List Row := preprocess [goodRaw]

lemma sampleCleaned_length : sampleCleaned.length = 1 := rfl

lemma sampleCleaned_ne_nil : sampleCleaned ≠ [] :=
  List.ne_nil_of_length_pos (by rw [sampleCleaned_length]; exact Nat.one_pos)

/-- The one record of the sample cleaned dataset. -/
noncomputable def sampleRow : Row := sampleCleaned.head sampleCleaned_ne_nil

lemma sampleRow_mem : sampleRow ∈ preprocess [goodRaw] :=
  List.head_mem sampleCleaned_ne_nil

/-- Witness for C2 at the concrete cleaned dataset `preprocess [goodRaw]`. -/
theorem cleaned_distance_is_haversine_witness :
    sampleRow ∈ preprocess [goodRaw] ∧
      sampleRow.distance =
        2 * 6371 *
          atan2
            (Real.sqrt
              (Real.sin (((sampleRow.dropoff_lat : ℝ) * Real.pi / 180 -
                    (sampleRow.pickup_lat : ℝ) * Real.pi / 180) / 2) ^ 2 +
                Real.cos ((sampleRow.pickup_lat : ℝ) * Real.pi / 180) *
                    Real.cos ((sampleRow.dropoff_lat : ℝ) * Real.pi / 180) *
                  Real.sin (((sampleRow.dropoff_lon : ℝ) * Real.pi / 180 -
                      (sampleRow.pickup_lon : ℝ) * Real.pi / 180) / 2) ^ 2))
            (Real.sqrt
              (1 -
                (Real.sin (((sampleRow.dropoff_lat : ℝ) * Real.pi / 180 -
                      (sampleRow.pickup_lat : ℝ) * Real.pi / 180) / 2) ^ 2 +
                  Real.cos ((sampleRow.pickup_lat : ℝ) * Real.pi / 180) *
                      Real.cos ((sampleRow.dropoff_lat : ℝ) * Real.pi / 180) *
                    Real.sin (((sampleRow.dropoff_lon : ℝ) * Real.pi / 180 -
                        (sampleRow.pickup_lon : ℝ) * Real.pi / 180) / 2) ^ 2))) :=
  ⟨sampleRow_mem, cleaned_distance_is_haversine [goodRaw] sampleRow sampleRow_mem⟩

/-- Witness for C8 at the concrete cleaned dataset `preprocess [goodRaw]`. -/
theorem cleaned_distance_duration_nonneg_witness :
    sampleRow ∈ preprocess [goodRaw] ∧
      (0 ≤ sampleRow.distance ∧ 0 ≤ sampleRow.distance / 20 * 60 ∧
        sampleRow.distance
          = haversine_distance sampleRow.pickup_lat sampleRow.pickup_lon
              sampleRow.dropoff_lat sampleRow.dropoff_lon) :=
  ⟨sampleRow_mem, cleaned_distance_duration_nonneg [goodRaw] sampleRow sampleRow_mem⟩

/-- Counterexample to C4 as stated: on the cleaned dataset holding a single
Monday record, the weekly distribution does not map every day to its count —
the six empty days carry NaN (`none`), not the count 0. -/
theorem weekly_pattern_zero_count_fails :
    ¬ ((analyze_weekly_pattern (preprocess [goodRaw])).1
        = days_order.map fun d =>
            (d, some (((preprocess [goodRaw]).map Row.day).count d))) := by
  decide

/-- Claim C4 as amended: the weekly distribution is a mapping over exactly
the seven day names ordered Monday through Sunday, where a day occurring in
the data carries its record count and a day with no records carries NaN
(`none`) — the day is present but its value is undefined, not 0. -/
theorem weekly_pattern_amended (df : List Row) :
    (analyze_weekly_pattern df).1
      = days_order.map fun d =>
          (d, if 0 < (df.map Row.day).count d
              then some ((df.map Row.day).count d) else none) := by
  simp only [analyze_weekly_pattern, reindex, lookup_value_counts]

/-- Claim C3 (code bug): on an empty cleaned dataset
`generate_summary_stats` does not return a mapping with `total_rides = 0` —
`self.df['hour'].mode()` is empty and `.iloc[0]` raises `IndexError`
(modelled by `none`). -/
theorem summary_stats_empty_raises :
    generate_summary_stats ([] : List Row) = none := rfl

/-- Claim C5 (code bug): when the input file cannot be opened, `__init__`
catches `FileNotFoundError` and shows a message but never assigns `self.df`;
a subsequent `generate_summary_stats` call then raises `AttributeError`
rather than returning empty analytics. -/
theorem missing_file_analytics_raises :
    (mkAnalysis none).df = none ∧
      generate_summary_stats_run (mkAnalysis none)
        = Except.error PyError.attributeError :=
  ⟨rfl, rfl⟩

/-- Claim C6: the location-popularity view contains a group `(p, c)` if and
only if `c` is the number of records whose (pickup latitude, pickup
longitude) pair is exactly `p` and `c > 10`; in particular no group with
count ≤ 10 ever appears. -/
theorem popular_locations_iff (df : List Row) (p : ℚ × ℚ) (c : Nat) :
    (p, c) ∈ (analyze_popular_locations df).1
      ↔ c = (df.map pickupKey).count p ∧ 10 < c := by
  unfold analyze_popular_locations popular_locations pickup_clusters
  rw [List.mem_filter]
  constructor
  · rintro ⟨hmem, hc⟩
    obtain ⟨a, ha, heq⟩ := List.mem_map.mp hmem
    have h1 : a = p := congrArg Prod.fst heq
    have h2 : (df.map pickupKey).count a = c := congrArg Prod.snd heq
    have hc' : 10 < c := by simpa using hc
    exact ⟨by rw [← h2, h1], hc'⟩
  · rintro ⟨hc, h10⟩
    have hpos : 0 < (df.map pickupKey).count p := by omega
    refine ⟨List.mem_map.mpr
      ⟨p, List.mem_dedup.mpr (List.count_pos_iff.mp hpos), by rw [hc]⟩, ?_⟩
    simpa using h10

/-- Counterexample to C9 as stated: `analyze_trip_durations` is not
read-only — on the sample cleaned dataset it changes the record set by
assigning the `trip_duration` column. -/
theorem trip_durations_not_read_only :
    (analyze_trip_durations (preprocess [goodRaw])).2 ≠ preprocess [goodRaw] := by
  intro h
  have h2 := congrArg (List.map fun r => r.trip_duration.isSome) h
  have h3 : ([true] : List Bool) = [false] := h2
  exact absurd h3 (by decide)

/-- Claim C9 as amended: the hourly, weekly, location-popularity and fare
views and the summary statistics leave the cleaned dataset unchanged; the
trip-duration view preserves the records, their existing field values and
their order, but additionally sets the `trip_duration` column to
`distance / 20 * 60` on every record. -/
theorem aggregations_read_only_amended (df : List Row) :
    (analyze_peak_hours df).2 = df ∧
      (analyze_weekly_pattern df).2 = df ∧
      (analyze_popular_locations df).2 = df ∧
      (analyze_fare_distribution df).2 = df ∧
      (analyze_trip_durations df).2
        = df.map fun r => { r with trip_duration := some (r.distance / 20 * 60) } :=
  ⟨rfl, rfl, rfl, rfl, rfl⟩

end UberPune
